import Mathlib

/-!
Verification of the `SystemMPI` easyblock
(`easybuild/easyblocks/generic/systemmpi.py`).

The Python class is embedded shallowly:

* external collaborators (`which`, `os.path.realpath`, `os.path.dirname`,
  `run_cmd` outputs, `read_file`, `os.environ`, `os.path.exists`,
  `extract_compiler_version`, the active module naming scheme, and the
  inherited generic module-generation procedures) become fields of a
  `World` record or explicit function parameters;
* the regular expressions of the source are modelled line by line:
  `^\s+<pattern>: (.*)$` with `re.M` matches a line made of at least one
  whitespace character, the literal pattern, `": "`, and the capture;
  `(?<=compilers_and_libraries_)(.*)(?=/linux/mpi)` with `re.M` matches,
  inside a single line, the text between the first occurrence of the
  left marker and the last following occurrence of the right marker;
* mutation of `self.cfg['version']` / `self.installdir` becomes explicit
  state passing of a `ModState` record;
* `raise` becomes `Except.error`.  Python's `AttributeError` (raised by
  `.group(1)` on a failed `re.search`, which returns `None`) is kept
  distinct from `EasyBuildError`.
-/

/-- Errors a method can raise: EasyBuild's own configuration error, or a
plain Python `AttributeError` (as raised by `None.group(1)`). -/
inductive EBError where
  | easybuild : String → EBError
  | attributeError : String → EBError
deriving DecidableEq, Repr

deriving instance DecidableEq for Except

/-- The slice of the easyconfig the easyblock reads: `self.cfg['name']`
and `self.cfg['version']`. -/
structure Config where
  name : String
  version : String
deriving DecidableEq, Repr

/-- Ambient process/filesystem state and external collaborators consumed
by `SystemMPI.__init__` (all treated as given interfaces). -/
structure World where
  /-- `easybuild.tools.filetools.which`: search-path lookup. -/
  which : String → Option String
  /-- `os.path.realpath`. -/
  realpath : String → String
  /-- `os.path.dirname`. -/
  dirname : String → String
  /-- captured stdout of `run_cmd("ompi_info")`. -/
  ompi_info_out : String
  /-- captured stdout of `run_cmd("mpiicc -compile-info")`. -/
  compile_info_out : String
  /-- `easybuild.tools.filetools.read_file`. -/
  readFile : String → String
  /-- snapshot of `os.environ` as an association list. -/
  environ : List (String × String)
  /-- `os.path.exists`. -/
  pathExists : String → Bool
  /-- `easybuild.easyblocks.generic.systemcompiler.extract_compiler_version`. -/
  extract_compiler_version : String → String
  /-- `ActiveMNS().det_full_module_name`. -/
  det_full_mod_name : Config → String
  /-- `ActiveMNS().det_short_module_name`. -/
  det_short_mod_name : Config → String
  /-- `ActiveMNS().det_module_subdir`. -/
  det_mod_subdir : Config → String
  /-- `self.installdir` as set by the `Bundle` base constructor. -/
  installdir0 : String

/-- Python's `str.lower` (the source only lowercases ASCII names). -/
def strLower (s : String) : String :=
  String.mk (s.data.map Char.toLower)

/-- `startsWith`, character-list based. -/
def strStartsWith (s pre : String) : Bool :=
  pre.data.isPrefixOf s.data

/-- `endsWith`, character-list based. -/
def strEndsWith (s post : String) : Bool :=
  post.data.isSuffixOf s.data

/-- Split a character list at every occurrence of `sep` (the source only
splits on single-character separators `'\n'` and `' '`). -/
def splitOnChar (sep : Char) : List Char → List (List Char)
  | [] => [[]]
  | c :: rest =>
    let r := splitOnChar sep rest
    if c == sep then [] :: r
    else (c :: r.headD []) :: r.tail

/-- The lines of a string, as by `txt.split('\n')` / `re.M` line anchors. -/
def strLines (s : String) : List (List Char) :=
  splitOnChar '\n' s.data

/-- Python's `\s` character class. -/
def pyIsSpace (c : Char) : Bool :=
  c == ' ' || c == '\t' || c == '\n' || c == '\r' || c == '\x0b' || c == '\x0c'

/-- One line of `re.search(r'^\s+<pattern>: (.*)$', txt, re.M)`: the line
must begin with at least one whitespace character, then the literal
pattern and `": "`; the capture is the rest of the line. -/
def ompiLineCapture (pattern : String) (line : List Char) : Option String :=
  let rest := line.dropWhile pyIsSpace
  if rest.length < line.length && (pattern.data ++ [':', ' ']).isPrefixOf rest then
    some (String.mk (rest.drop (pattern.data.length + 2)))
  else
    none

/-- First `some` produced by `f` over a list (leftmost regex match). -/
def firstSome {α β : Type} (f : α → Option β) : List α → Option β
  | [] => none
  | a :: l =>
    match f a with
    | some b => some b
    | none => firstSome f l

/-- `SystemMPI.extract_ompi_setting`: extract a particular OpenMPI setting
from the provided string, or raise `EasyBuildError`. -/
def extract_ompi_setting (pattern txt : String) : Except EBError String :=
  match firstSome (ompiLineCapture pattern) (strLines txt) with
  | some setting => Except.ok setting
  | none =>
      Except.error (EBError.easybuild
        ("Failed to extract OpenMPI setting " ++ pattern ++
         " using regex pattern ^\\s+" ++ pattern ++ ": (.*)$ from: " ++ txt))

/-- Longest capture `cap` with `cap ++ post ++ _ = tail` up to the
lookahead reading: the longest prefix `cap` of `tail` such that `post` is
a prefix of what remains (greedy `(.*)` backtracking to the last
occurrence of the lookahead). -/
def lastCaptureBefore (post : List Char) : List Char → Option (List Char)
  | [] => if post.isPrefixOf ([] : List Char) then some [] else none
  | c :: rest =>
    match lastCaptureBefore post rest with
    | some cap => some (c :: cap)
    | none => if post.isPrefixOf (c :: rest) then some [] else none

/-- Scan for the leftmost position where `pre` occurs; from there take the
greedy capture bounded by the last `post` occurrence, else keep scanning
(the regex engine advancing its start position). -/
def searchFromChars (pre post : List Char) : List Char → Option (List Char)
  | [] => none
  | c :: rest =>
    if pre.isPrefixOf (c :: rest) then
      match lastCaptureBefore post (List.drop pre.length (c :: rest)) with
      | some cap => some cap
      | none => searchFromChars pre post rest
    else
      searchFromChars pre post rest

/-- `re.compile(r'(?<=compilers_and_libraries_)(.*)(?=/linux/mpi)', re.M).search`:
since neither marker nor the capture may span a newline, the search is the
first line containing a match, with the greedy in-line capture. -/
def intelVersionSearch (contents : String) : Option String :=
  firstSome
    (fun line =>
      (searchFromChars "compilers_and_libraries_".data "/linux/mpi".data
          line).map String.mk)
    (strLines contents)

/-- Python `dict.update` on association lists, up to insertion order
(which the data model declares irrelevant): entries of `d2` override
entries of `d1` with the same key. -/
def dictUpdate (d1 d2 : List (String × String)) : List (String × String) :=
  d1.filter (fun kv => (d2.lookup kv.1).isNone) ++ d2

/-- The three `dict` comprehensions and two `update` calls that collect
IntelMPI-related environment variables. -/
def intelEnvvars (environ : List (String × String)) : List (String × String) :=
  dictUpdate
    (dictUpdate (environ.filter (fun kv => strStartsWith kv.1 "I_MPI_"))
      (environ.filter (fun kv => strStartsWith kv.1 "MPICH_")))
    (environ.filter (fun kv => strStartsWith kv.1 "MPI" && strEndsWith kv.1 "PROFILE"))

/-- The implementation-specific data derived by the constructor's branch:
version, install prefix, collected environment variables, C compiler. -/
structure DetectCore where
  mpi_version : String
  mpi_prefix : String
  mpi_envvars : List (String × String)
  mpi_c_compiler : String
deriving DecidableEq, Repr

/-- The `mpi_name == 'openmpi'` branch of `SystemMPI.__init__`. -/
def openmpiDetect (w : World) : Except EBError DetectCore :=
  match extract_ompi_setting "Open MPI" w.ompi_info_out with
  | Except.error e => Except.error e
  | Except.ok v =>
    match extract_ompi_setting "Prefix" w.ompi_info_out with
    | Except.error e => Except.error e
    | Except.ok pfx =>
      let ev := w.environ.filter (fun kv => strStartsWith kv.1 "OMPI_")
      match extract_ompi_setting "C compiler" w.ompi_info_out with
      | Except.error e => Except.error e
      | Except.ok cc => Except.ok ⟨v, pfx, ev, cc⟩

/-- The `mpi_name == 'impi'` branch of `SystemMPI.__init__`.  Note the
source computes `prefix_regex.search(contents).group(1)` first: when the
search fails it returns `None` and `.group(1)` raises `AttributeError`,
so the subsequent `if self.mpi_version is not None` test sees a string
and its `else` arm (`EasyBuildError("No version found for system Intel
MPI")`) is unreachable. -/
def impiDetect (w : World) (path_to_mpi_c_wrapper : String) : Except EBError DetectCore :=
  let contents := w.readFile path_to_mpi_c_wrapper
  match intelVersionSearch contents with
  | none =>
      Except.error (EBError.attributeError
        "NoneType object has no attribute group")
  | some v =>
    if (some v : Option String).isSome then
      let pfx :=
        match w.environ.lookup "I_MPI_ROOT" with
        | some r =>
          if r == "" then
            w.dirname (w.dirname (w.dirname path_to_mpi_c_wrapper))
          else r
        | none => w.dirname (w.dirname (w.dirname path_to_mpi_c_wrapper))
      Except.ok ⟨v, pfx, intelEnvvars w.environ,
        String.mk ((splitOnChar ' ' w.compile_info_out.data).headD [])⟩
    else
      Except.error (EBError.easybuild "No version found for system Intel MPI")

/-- Everything `SystemMPI.__init__` derives before the version check:
branch data plus the explicitly extracted C compiler version. -/
structure Derived where
  mpi_version : String
  mpi_prefix : String
  mpi_envvars : List (String × String)
  mpi_c_compiler : String
  c_compiler_version : String
deriving DecidableEq, Repr

/-- `SystemMPI.__init__` up to (and excluding) the requested-version
check: wrapper resolution, implementation branch, install-prefix
existence check, C compiler version extraction. -/
def deriveMPI (w : World) (cfg : Config) : Except EBError Derived :=
  let mpi_name := strLower cfg.name
  let mpi_c_wrapper := if mpi_name == "impi" then "mpiicc" else "mpicc"
  match w.which mpi_c_wrapper with
  | none => Except.error (EBError.easybuild (mpi_c_wrapper ++ " not found in $PATH"))
  | some p0 =>
    let path_to_mpi_c_wrapper := w.realpath p0
    let core :=
      if mpi_name == "openmpi" then openmpiDetect w
      else if mpi_name == "impi" then impiDetect w path_to_mpi_c_wrapper
      else
        Except.error (EBError.easybuild
          ("Unrecognised system MPI implementation " ++ mpi_name))
    match core with
    | Except.error e => Except.error e
    | Except.ok c =>
      if w.pathExists c.mpi_prefix then
        Except.ok
          { mpi_version := c.mpi_version
            mpi_prefix := c.mpi_prefix
            mpi_envvars := c.mpi_envvars
            mpi_c_compiler := c.mpi_c_compiler
            c_compiler_version := w.extract_compiler_version c.mpi_c_compiler }
      else
        Except.error (EBError.easybuild
          ("Path derived for system MPI (" ++ mpi_name ++ ") does not exist: " ++
           c.mpi_prefix ++ "!"))

/-- The fields of a fully constructed `SystemMPI` instance the later
methods read. -/
structure MpiInst where
  mpi_version : String
  mpi_prefix : String
  mpi_envvars : List (String × String)
  mpi_c_compiler : String
  c_compiler_version : String
  full_mod_name : String
  short_mod_name : String
  mod_subdir : String
  orig_version : String
  orig_installdir : String
deriving DecidableEq, Repr

/-- The tail of `SystemMPI.__init__` after a successful version check:
module names via the naming scheme, and the recorded originals. -/
def mkInst (w : World) (cfg : Config) (d : Derived) : MpiInst :=
  { mpi_version := d.mpi_version
    mpi_prefix := d.mpi_prefix
    mpi_envvars := d.mpi_envvars
    mpi_c_compiler := d.mpi_c_compiler
    c_compiler_version := d.c_compiler_version
    full_mod_name := w.det_full_mod_name cfg
    short_mod_name := w.det_short_mod_name cfg
    mod_subdir := w.det_mod_subdir cfg
    orig_version := cfg.version
    orig_installdir := w.installdir0 }

/-- `SystemMPI.__init__`: derivation, then the requested-version check
(`'system'` accepts the derived version; an exact match passes; anything
else raises), then the naming-scheme updates and recording of originals. -/
def systemMPI_init (w : World) (cfg : Config) : Except EBError MpiInst :=
  match deriveMPI w cfg with
  | Except.error e => Except.error e
  | Except.ok d =>
    if cfg.version == "system" then Except.ok (mkInst w cfg d)
    else if cfg.version == d.mpi_version then Except.ok (mkInst w cfg d)
    else
      Except.error (EBError.easybuild
        ("Specified version (" ++ cfg.version ++
         ") does not match version reported by MPI (" ++ d.mpi_version ++ ")"))

/-- The two easyconfig/instance fields the module-generation methods
temporarily overwrite: `self.cfg['version']` and `self.installdir`. -/
structure ModState where
  version : String
  installdir : String
deriving DecidableEq, Repr

/-- What `make_module_step` reads from `self.toolchain` and
`get_software_version`: `COMPILER_CC` and the version of the first
compiler module. -/
structure Toolchain where
  compiler_cc : String
  software_version : String
deriving DecidableEq, Repr

/-- `SystemMPI.make_module_step`: compiler consistency check (with the
`DUMMYCC` substitution), scoped overwrite of version/installdir with the
derived MPI values around the delegated generic step, sequential (not
exception-safe) restore.  The delegated step is a parameter; the pair
returned is (result or error, state after the call). -/
def make_module_step (self : MpiInst) (tc : Toolchain)
    (superStep : Bool → ModState → Except EBError String) (fake : Bool)
    (st : ModState) : Except EBError String × ModState :=
  let checked :=
    if tc.compiler_cc == "DUMMYCC" then ("gcc", self.c_compiler_version)
    else (tc.compiler_cc, tc.software_version)
  if self.mpi_c_compiler != checked.1 || self.c_compiler_version != checked.2 then
    (Except.error (EBError.easybuild
      ("C compiler for toolchain (" ++ checked.1 ++ "/" ++ checked.2 ++
       ") and underneath MPI (" ++ self.mpi_c_compiler ++ "/" ++
       self.c_compiler_version ++ ") do not match!")), st)
  else
    let st1 : ModState := { version := self.mpi_version, installdir := self.mpi_prefix }
    match superStep fake st1 with
    | Except.ok res =>
        (Except.ok res,
         { version := self.orig_version, installdir := self.orig_installdir })
    | Except.error e => (Except.error e, st1)

/-- `SystemMPI.make_module_extend_modpath`: temporarily switch the version
back to the one specified in the easyconfig, delegate, then set the
version to the actual MPI version (sequentially, so not on exceptions). -/
def make_module_extend_modpath (self : MpiInst)
    (superExt : ModState → Except EBError String)
    (st : ModState) : Except EBError String × ModState :=
  let st1 : ModState := { st with version := self.orig_version }
  match superExt st1 with
  | Except.ok res => (Except.ok res, { st1 with version := self.mpi_version })
  | Except.error e => (Except.error e, st1)

/-- `SystemMPI.make_module_req_guess`: the fixed 64-bit table for the raw
configured name `"impi"`, the empty dict otherwise. -/
def make_module_req_guess (cfg : Config) : List (String × List String) :=
  if cfg.name == "impi" then
    let lib_dirs := ["lib/em64t", "lib64"]
    let include_dirs := ["include64"]
    [("PATH", ["bin/intel64", "bin64"]),
     ("LD_LIBRARY_PATH", lib_dirs),
     ("LIBRARY_PATH", lib_dirs),
     ("CPATH", include_dirs),
     ("MIC_LD_LIBRARY_PATH", ["mic/lib"])]
  else
    []

/-! Concrete fixtures used by witnesses and counterexamples. -/

/-- A world with a working OpenMPI 4.0.1 installation. -/
def wOmpi : World :=
  { which := fun s => if s == "mpicc" then some "/usr/bin/mpicc" else none
    realpath := fun s => s
    dirname := fun _ => "/opt"
    ompi_info_out := "    Open MPI: 4.0.1\n    Prefix: /opt/ompi\n    C compiler: gcc\n"
    compile_info_out := ""
    readFile := fun _ => ""
    environ := [("OMPI_MCA_btl", "self"), ("HOME", "/root")]
    pathExists := fun s => s == "/opt/ompi"
    extract_compiler_version := fun _ => "7.3.0"
    det_full_mod_name := fun c => c.name ++ "/" ++ c.version
    det_short_mod_name := fun c => c.name ++ "/" ++ c.version
    det_mod_subdir := fun _ => ""
    installdir0 := "/tmp/eb" }

/-- Easyconfig requesting the sentinel version. -/
def cfg1 : Config := { name := "OpenMPI", version := "system" }

/-- What `deriveMPI wOmpi cfg1` produces. -/
def d1 : Derived :=
  { mpi_version := "4.0.1"
    mpi_prefix := "/opt/ompi"
    mpi_envvars := [("OMPI_MCA_btl", "self")]
    mpi_c_compiler := "gcc"
    c_compiler_version := "7.3.0" }

/-- A fully constructed instance (as built by `systemMPI_init wOmpi cfg1`). -/
def instX : MpiInst := mkInst wOmpi cfg1 d1

/-- A delegated generic module-text generator that succeeds. -/
def superOkX : ModState → Except EBError String := fun _ => Except.ok "modtxt"

/-- A delegated generic module-step generator that succeeds. -/
def superStepOkX : Bool → ModState → Except EBError String := fun _ _ => Except.ok "modtxt"

/-- The configuration state right after construction. -/
def stX : ModState := { version := "system", installdir := "/tmp/eb" }

/-! Claim theorems. -/

/-- C8: `make_module_req_guess` returns, for the raw configured name
`"impi"`, the fixed 64-bit table with keys `PATH`, `LD_LIBRARY_PATH`,
`LIBRARY_PATH`, `CPATH`, `MIC_LD_LIBRARY_PATH`, and the empty mapping for
every other configured name (in particular OpenMPI). -/
theorem C8_req_guess :
    (∀ version : String,
      make_module_req_guess { name := "impi", version := version } =
        [("PATH", ["bin/intel64", "bin64"]),
         ("LD_LIBRARY_PATH", ["lib/em64t", "lib64"]),
         ("LIBRARY_PATH", ["lib/em64t", "lib64"]),
         ("CPATH", ["include64"]),
         ("MIC_LD_LIBRARY_PATH", ["mic/lib"])]) ∧
    (∀ cfg : Config, cfg.name ≠ "impi" → make_module_req_guess cfg = []) := by
  constructor
  · intro version
    rfl
  · intro cfg h
    unfold make_module_req_guess
    rw [if_neg]
    simp only [beq_iff_eq]
    exact h

/-- Witness for C8 at the OpenMPI name. -/
theorem C8_req_guess_witness :
    ({ name := "OpenMPI", version := "system" } : Config).name ≠ "impi" ∧
    make_module_req_guess { name := "OpenMPI", version := "system" } = [] :=
  ⟨by decide, C8_req_guess.2 { name := "OpenMPI", version := "system" } (by decide)⟩

/-- C5: `make_module_extend_modpath` runs the delegated module-path
extension with the configuration's version set to the original requested
version; when the delegated call returns, the version is set to the
derived MPI version (the install directory is untouched) and the
delegated result is returned unchanged. -/
theorem C5_extend_modpath (self : MpiInst) (superExt : ModState → Except EBError String)
    (st : ModState) (r : String)
    (h : superExt { st with version := self.orig_version } = Except.ok r) :
    make_module_extend_modpath self superExt st =
      (Except.ok r, { st with version := self.mpi_version }) := by
  simp only [make_module_extend_modpath]
  rw [h]

/-- Witness for C5 on the concrete fixture. -/
theorem C5_extend_modpath_witness :
    superOkX { stX with version := instX.orig_version } = Except.ok "modtxt" ∧
    make_module_extend_modpath instX superOkX stX =
      (Except.ok "modtxt", { stX with version := instX.mpi_version }) :=
  ⟨rfl, C5_extend_modpath instX superOkX stX "modtxt" rfl⟩

/-- C2 counterexample: after a successful `make_module_extend_modpath`
the configuration's version is the derived MPI version `"4.0.1"`, not its
pre-call value `"system"`: the round-trip claim fails on success already. -/
theorem C2_counterexample :
    (make_module_extend_modpath instX superOkX stX).2.version ≠ stX.version := by
  decide

/-- C2 (amended): on successful return `make_module_step` sets version
and install directory to the originals recorded at construction (hence
the pre-call values whenever the pre-call state holds the originals),
while `make_module_extend_modpath` leaves the install directory unchanged
but sets the version to the derived MPI version; when the delegated call
raises, no restoration happens — the state keeps the substituted values
(or is unchanged when `make_module_step` fails its compiler check before
substituting). -/
theorem C2_amended_scoped_restore (self : MpiInst) (tc : Toolchain)
    (superStep : Bool → ModState → Except EBError String)
    (superExt : ModState → Except EBError String) (fake : Bool) (st : ModState) :
    (∀ r st2, make_module_step self tc superStep fake st = (Except.ok r, st2) →
      st2 = { version := self.orig_version, installdir := self.orig_installdir }) ∧
    (∀ e st2, make_module_step self tc superStep fake st = (Except.error e, st2) →
      st2 = st ∨ st2 = { version := self.mpi_version, installdir := self.mpi_prefix }) ∧
    (∀ r st2, make_module_extend_modpath self superExt st = (Except.ok r, st2) →
      st2 = { st with version := self.mpi_version }) ∧
    (∀ e st2, make_module_extend_modpath self superExt st = (Except.error e, st2) →
      st2 = { st with version := self.orig_version }) := by
  refine ⟨?_, ?_, ?_, ?_⟩
  · intro r st2 h
    simp only [make_module_step] at h
    repeat' split at h
    all_goals simp_all
  · intro e st2 h
    simp only [make_module_step] at h
    repeat' split at h
    all_goals simp_all
  · intro r st2 h
    simp only [make_module_extend_modpath] at h
    repeat' split at h
    all_goals simp_all
  · intro e st2 h
    simp only [make_module_extend_modpath] at h
    repeat' split at h
    all_goals simp_all

/-- Witness for C2 (amended): the success case of `make_module_step`. -/
theorem C2_amended_witness :
    make_module_step instX { compiler_cc := "gcc", software_version := "7.3.0" }
        superStepOkX false stX =
      (Except.ok "modtxt", { version := "system", installdir := "/tmp/eb" }) ∧
    ({ version := "system", installdir := "/tmp/eb" } : ModState) =
      { version := instX.orig_version, installdir := instX.orig_installdir } :=
  ⟨by decide,
   (C2_amended_scoped_restore instX { compiler_cc := "gcc", software_version := "7.3.0" }
      superStepOkX superOkX false stX).1 "modtxt"
      { version := "system", installdir := "/tmp/eb" } (by decide)⟩

/-- C4: for a non-dummy toolchain, any difference between the
toolchain-reported C compiler name/version and the one detected
underneath the MPI makes `make_module_step` fail with the consistency
error, leaving the state untouched (so before any substitution); for the
dummy `DUMMYCC` toolchain the step behaves exactly as if the toolchain
had reported `gcc` with the previously derived compiler version. -/
theorem C4_compiler_consistency (self : MpiInst) (tc : Toolchain)
    (superStep : Bool → ModState → Except EBError String) (fake : Bool) (st : ModState) :
    (tc.compiler_cc ≠ "DUMMYCC" →
      (self.mpi_c_compiler ≠ tc.compiler_cc ∨ self.c_compiler_version ≠ tc.software_version) →
      make_module_step self tc superStep fake st =
        (Except.error (EBError.easybuild
          ("C compiler for toolchain (" ++ tc.compiler_cc ++ "/" ++ tc.software_version ++
           ") and underneath MPI (" ++ self.mpi_c_compiler ++ "/" ++
           self.c_compiler_version ++ ") do not match!")), st)) ∧
    (tc.compiler_cc = "DUMMYCC" →
      make_module_step self tc superStep fake st =
        make_module_step self
          { compiler_cc := "gcc", software_version := self.c_compiler_version }
          superStep fake st) := by
  constructor
  · intro hdum hmis
    have hd : (tc.compiler_cc == "DUMMYCC") = false := beq_eq_false_iff_ne.mpr hdum
    have hc : (self.mpi_c_compiler != tc.compiler_cc ||
        self.c_compiler_version != tc.software_version) = true := by
      rcases hmis with h | h <;> simp [bne_iff_ne, h]
    simp [make_module_step, hd, hc]
  · intro hdum
    simp [make_module_step, hdum]

/-- Witness for C4: a non-dummy toolchain reporting `icc/19.0` against the
`gcc/7.3.0` detected underneath the MPI fails with the consistency error. -/
theorem C4_compiler_consistency_witness :
    (("icc" : String) ≠ "DUMMYCC" ∧
     (instX.mpi_c_compiler ≠ "icc" ∨ instX.c_compiler_version ≠ "19.0")) ∧
    make_module_step instX { compiler_cc := "icc", software_version := "19.0" }
        superStepOkX false stX =
      (Except.error (EBError.easybuild
        ("C compiler for toolchain (" ++ "icc" ++ "/" ++ "19.0" ++
         ") and underneath MPI (" ++ instX.mpi_c_compiler ++ "/" ++
         instX.c_compiler_version ++ ") do not match!")), stX) :=
  ⟨⟨by decide, Or.inl (by decide)⟩,
   (C4_compiler_consistency instX { compiler_cc := "icc", software_version := "19.0" }
      superStepOkX false stX).1 (by decide) (Or.inl (by decide))⟩

/-- C1: once the MPI data is derived, the requested-version check accepts
the sentinel `"system"` (construction succeeds recording the derived
version), accepts an exact match with the derived version, and rejects
any other requested version with a configuration error naming both the
requested and the derived version. -/
theorem C1_version_validation (w : World) (cfg : Config) (d : Derived)
    (hd : deriveMPI w cfg = Except.ok d) :
    (cfg.version = "system" →
      systemMPI_init w cfg = Except.ok (mkInst w cfg d) ∧
      (mkInst w cfg d).mpi_version = d.mpi_version) ∧
    (cfg.version = d.mpi_version →
      systemMPI_init w cfg = Except.ok (mkInst w cfg d)) ∧
    (cfg.version ≠ "system" → cfg.version ≠ d.mpi_version →
      systemMPI_init w cfg = Except.error (EBError.easybuild
        ("Specified version (" ++ cfg.version ++
         ") does not match version reported by MPI (" ++ d.mpi_version ++ ")"))) := by
  refine ⟨?_, ?_, ?_⟩
  · intro h
    refine ⟨?_, rfl⟩
    simp only [systemMPI_init]
    rw [hd]
    simp [h]
  · intro h
    simp only [systemMPI_init]
    rw [hd]
    by_cases hs : cfg.version = "system" <;> simp [h, hs]
  · intro h1 h2
    simp only [systemMPI_init]
    rw [hd]
    simp [h1, h2]

/-- Witness for C1 on the concrete OpenMPI world with requested version
`"system"`. -/
theorem C1_version_validation_witness :
    deriveMPI wOmpi cfg1 = Except.ok d1 ∧ cfg1.version = "system" ∧
    systemMPI_init wOmpi cfg1 = Except.ok (mkInst wOmpi cfg1 d1) :=
  ⟨by decide, rfl,
   ((C1_version_validation wOmpi cfg1 d1 (by decide)).1 rfl).1⟩

/-- A world whose search path holds no MPI wrapper at all. -/
def wNone : World :=
  { which := fun _ => none
    realpath := fun s => s
    dirname := fun s => s
    ompi_info_out := ""
    compile_info_out := ""
    readFile := fun _ => ""
    environ := []
    pathExists := fun _ => false
    extract_compiler_version := fun _ => ""
    det_full_mod_name := fun _ => ""
    det_short_mod_name := fun _ => ""
    det_mod_subdir := fun _ => ""
    installdir0 := "" }

/-- An easyconfig naming an unsupported MPI implementation. -/
def cfgFoo : Config := { name := "foo", version := "system" }

/-- C9 counterexample: with an unsupported implementation name and no
`mpicc` on the search path, construction fails with the wrapper-not-found
error, not with the unsupported-implementation error the claim promises
(the wrapper lookup precedes the implementation branch). -/
theorem C9_counterexample :
    strLower cfgFoo.name ≠ "openmpi" ∧ strLower cfgFoo.name ≠ "impi" ∧
    systemMPI_init wNone cfgFoo =
      Except.error (EBError.easybuild "mpicc not found in $PATH") ∧
    systemMPI_init wNone cfgFoo ≠
      Except.error (EBError.easybuild
        "Unrecognised system MPI implementation foo") := by
  decide

/-- C9 (amended): for an implementation name whose lowercasing is neither
`"openmpi"` nor `"impi"`, construction fails with the
unsupported-implementation error naming the lowercased name provided
`mpicc` is on the search path; the wrapper executable is `mpiicc` for
IntelMPI and `mpicc` for every other name, and when that wrapper is not
found construction fails with the wrapper-not-found error (this lookup
happens before the implementation branch). -/
theorem C9_unsupported_and_wrapper (w : World) (cfg : Config) :
    (strLower cfg.name ≠ "openmpi" → strLower cfg.name ≠ "impi" →
      (w.which "mpicc").isSome = true →
      systemMPI_init w cfg = Except.error (EBError.easybuild
        ("Unrecognised system MPI implementation " ++ strLower cfg.name))) ∧
    (strLower cfg.name = "impi" → w.which "mpiicc" = none →
      systemMPI_init w cfg =
        Except.error (EBError.easybuild "mpiicc not found in $PATH")) ∧
    (strLower cfg.name ≠ "impi" → w.which "mpicc" = none →
      systemMPI_init w cfg =
        Except.error (EBError.easybuild "mpicc not found in $PATH")) := by
  refine ⟨?_, ?_, ?_⟩
  · intro h1 h2 h3
    have ho : (strLower cfg.name == "openmpi") = false := beq_eq_false_iff_ne.mpr h1
    have hi : (strLower cfg.name == "impi") = false := beq_eq_false_iff_ne.mpr h2
    obtain ⟨p, hp⟩ := Option.isSome_iff_exists.mp h3
    simp [systemMPI_init, deriveMPI, ho, hi, hp]
  · intro h1 h2
    simp [systemMPI_init, deriveMPI, h1, h2]
  · intro h1 h2
    have hi : (strLower cfg.name == "impi") = false := beq_eq_false_iff_ne.mpr h1
    simp [systemMPI_init, deriveMPI, hi, h2]

/-- Witness for C9 (amended): name `"foo"` with `mpicc` available. -/
theorem C9_unsupported_witness :
    (strLower cfgFoo.name ≠ "openmpi" ∧ strLower cfgFoo.name ≠ "impi" ∧
     (wOmpi.which "mpicc").isSome = true) ∧
    systemMPI_init wOmpi cfgFoo = Except.error (EBError.easybuild
      ("Unrecognised system MPI implementation " ++ strLower cfgFoo.name)) :=
  ⟨⟨by decide, by decide, by decide⟩,
   (C9_unsupported_and_wrapper wOmpi cfgFoo).1 (by decide) (by decide) (by decide)⟩

/-- C10: construction lowercases the configured name before branching, so
any case variant of `"impi"` is treated as IntelMPI (derivation behaves
exactly as for the name `"impi"`), while `make_module_req_guess` compares
the raw name with `"impi"`, so every non-lowercase variant gets the empty
mapping. -/
theorem C10_case_inconsistency (w : World) (name version : String)
    (hlow : strLower name = "impi") (hne : name ≠ "impi") :
    deriveMPI w { name := name, version := version } =
      deriveMPI w { name := "impi", version := version } ∧
    make_module_req_guess { name := name, version := version } = [] := by
  constructor
  · simp [deriveMPI, hlow, show strLower "impi" = "impi" from by decide]
  · simp [make_module_req_guess, hne]

/-- Witness for C10 at the name `"IMPI"`. -/
theorem C10_case_inconsistency_witness :
    (strLower "IMPI" = "impi" ∧ "IMPI" ≠ "impi") ∧
    (deriveMPI wOmpi { name := "IMPI", version := "system" } =
       deriveMPI wOmpi { name := "impi", version := "system" } ∧
     make_module_req_guess { name := "IMPI", version := "system" } = []) :=
  ⟨⟨by decide, by decide⟩,
   C10_case_inconsistency wOmpi "IMPI" "system" (by decide) (by decide)⟩

/-- A world with an `mpiicc` wrapper whose script text lacks the
`compilers_and_libraries_.../linux/mpi` marker entirely. -/
def wImpiBad : World :=
  { which := fun s => if s == "mpiicc" then some "/usr/bin/mpiicc" else none
    realpath := fun s => s
    dirname := fun _ => "/opt/intel"
    ompi_info_out := ""
    compile_info_out := "gcc -I/opt/intel/include"
    readFile := fun _ => "#!/bin/sh\necho hello\n"
    environ := []
    pathExists := fun _ => true
    extract_compiler_version := fun _ => ""
    det_full_mod_name := fun _ => ""
    det_short_mod_name := fun _ => ""
    det_mod_subdir := fun _ => ""
    installdir0 := "/tmp/eb" }

/-- An IntelMPI easyconfig. -/
def cfgImpi : Config := { name := "impi", version := "system" }

/-- C3 (code bug): when the wrapper script text has no substring between
the `compilers_and_libraries_` marker and `/linux/mpi`, the IntelMPI
branch raises a bare `AttributeError` (from `None.group(1)`), which is
not an `EasyBuildError`; the `"No version found for system Intel MPI"`
configuration error the claim describes sits in dead code. -/
theorem C3_intel_no_version_attribute_error (w : World) (cfg : Config) (p : String)
    (hname : strLower cfg.name = "impi")
    (hp : w.which "mpiicc" = some p)
    (hsearch : intelVersionSearch (w.readFile (w.realpath p)) = none) :
    systemMPI_init w cfg = Except.error (EBError.attributeError
      "NoneType object has no attribute group") ∧
    ∀ msg : String, (EBError.attributeError "NoneType object has no attribute group") ≠
      EBError.easybuild msg := by
  constructor
  · simp [systemMPI_init, deriveMPI, impiDetect, hname, hp, hsearch]
  · intro msg h
    cases h

/-- Witness for C3 on the concrete marker-free wrapper script. -/
theorem C3_intel_no_version_witness :
    (strLower cfgImpi.name = "impi" ∧
     wImpiBad.which "mpiicc" = some "/usr/bin/mpiicc" ∧
     intelVersionSearch (wImpiBad.readFile (wImpiBad.realpath "/usr/bin/mpiicc")) = none) ∧
    systemMPI_init wImpiBad cfgImpi = Except.error (EBError.attributeError
      "NoneType object has no attribute group") :=
  ⟨⟨by decide, by decide, by decide⟩,
   (C3_intel_no_version_attribute_error wImpiBad cfgImpi "/usr/bin/mpiicc"
      (by decide) (by decide) (by decide)).1⟩

/-- If every hit of `f` on the list yields `v` and some element hits,
the leftmost hit is `v`. -/
lemma firstSome_all_eq {α β : Type} (f : α → Option β) (v : β) (l : List α) :
    (∀ a ∈ l, f a ≠ none → f a = some v) → (∃ a ∈ l, f a = some v) →
    firstSome f l = some v := by
  induction l with
  | nil =>
    intro _ hex
    simp at hex
  | cons a t ih =>
    intro hall hex
    cases hfa : f a with
    | some b =>
      have hv : f a = some v := hall a (List.mem_cons_self a t) (by simp [hfa])
      simp only [firstSome, hfa]
      rw [hfa] at hv
      exact hv
    | none =>
      simp only [firstSome, hfa]
      apply ih
      · intro x hx hnx
        exact hall x (List.mem_cons_of_mem a hx) hnx
      · rcases hex with ⟨x, hx, hfx⟩
        rcases List.mem_cons.mp hx with rfl | hxt
        · rw [hfa] at hfx
          cases hfx
        · exact ⟨x, hxt, hfx⟩

/-- If `f` misses every element, `firstSome` misses. -/
lemma firstSome_eq_none {α β : Type} (f : α → Option β) (l : List α) :
    (∀ a ∈ l, f a = none) → firstSome f l = none := by
  induction l with
  | nil =>
    intro _
    rfl
  | cons a t ih =>
    intro h
    simp only [firstSome, h a (List.mem_cons_self a t)]
    exact ih (fun x hx => h x (List.mem_cons_of_mem a hx))

/-- C7: on any info-output text whose `Open MPI` / `Prefix` / `C compiler`
labelled lines (in the anchored `^\s+<label>: value$` shape) all carry the
values `4.0.1`, `/opt/ompi` and `gcc`, extraction returns exactly those
three values; and on any text where a label matches no line at all,
extraction fails with the error naming that label. -/
theorem C7_ompi_info_extraction (txt : String)
    (h1 : ∀ l ∈ strLines txt, ompiLineCapture "Open MPI" l ≠ none →
      ompiLineCapture "Open MPI" l = some "4.0.1")
    (h1e : ∃ l ∈ strLines txt, ompiLineCapture "Open MPI" l = some "4.0.1")
    (h2 : ∀ l ∈ strLines txt, ompiLineCapture "Prefix" l ≠ none →
      ompiLineCapture "Prefix" l = some "/opt/ompi")
    (h2e : ∃ l ∈ strLines txt, ompiLineCapture "Prefix" l = some "/opt/ompi")
    (h3 : ∀ l ∈ strLines txt, ompiLineCapture "C compiler" l ≠ none →
      ompiLineCapture "C compiler" l = some "gcc")
    (h3e : ∃ l ∈ strLines txt, ompiLineCapture "C compiler" l = some "gcc") :
    extract_ompi_setting "Open MPI" txt = Except.ok "4.0.1" ∧
    extract_ompi_setting "Prefix" txt = Except.ok "/opt/ompi" ∧
    extract_ompi_setting "C compiler" txt = Except.ok "gcc" ∧
    (∀ pattern txt2 : String,
      (∀ l ∈ strLines txt2, ompiLineCapture pattern l = none) →
      extract_ompi_setting pattern txt2 = Except.error (EBError.easybuild
        ("Failed to extract OpenMPI setting " ++ pattern ++
         " using regex pattern ^\\s+" ++ pattern ++ ": (.*)$ from: " ++ txt2))) := by
  refine ⟨?_, ?_, ?_, ?_⟩
  · unfold extract_ompi_setting
    rw [firstSome_all_eq _ _ _ h1 h1e]
  · unfold extract_ompi_setting
    rw [firstSome_all_eq _ _ _ h2 h2e]
  · unfold extract_ompi_setting
    rw [firstSome_all_eq _ _ _ h3 h3e]
  · intro pattern txt2 hnone
    unfold extract_ompi_setting
    rw [firstSome_eq_none _ _ hnone]

/-- Witness for C7 on the simulated `ompi_info` output, plus a concrete
missing-label failure. -/
theorem C7_ompi_info_extraction_witness :
    extract_ompi_setting "Open MPI" wOmpi.ompi_info_out = Except.ok "4.0.1" ∧
    extract_ompi_setting "Prefix" wOmpi.ompi_info_out = Except.ok "/opt/ompi" ∧
    extract_ompi_setting "C compiler" wOmpi.ompi_info_out = Except.ok "gcc" ∧
    extract_ompi_setting "Open MPI" "no labels here" = Except.error (EBError.easybuild
      ("Failed to extract OpenMPI setting " ++ "Open MPI" ++
       " using regex pattern ^\\s+" ++ "Open MPI" ++ ": (.*)$ from: " ++
       "no labels here")) := by
  have h := C7_ompi_info_extraction wOmpi.ompi_info_out
    (by decide) (by decide) (by decide) (by decide) (by decide) (by decide)
  exact ⟨h.1, h.2.1, h.2.2.1, h.2.2.2 "Open MPI" "no labels here" (by decide)⟩

/-- A lookup misses when no key of the list equals it. -/
lemma lookup_none_of_ne (l : List (String × String)) (k : String)
    (h : ∀ kv ∈ l, kv.1 ≠ k) : l.lookup k = none := by
  induction l with
  | nil => rfl
  | cons a t ih =>
    obtain ⟨k1, v1⟩ := a
    have hne : (k == k1) = false :=
      beq_eq_false_iff_ne.mpr (fun he => (h (k1, v1) (by simp)) he.symm)
    simp only [List.lookup, hne]
    exact ih (fun kv hkv => h kv (by simp [hkv]))

/-- Membership in the order-abstracted `dict.update`. -/
lemma mem_dictUpdate (d1 d2 : List (String × String)) (kv : String × String) :
    kv ∈ dictUpdate d1 d2 ↔
      (kv ∈ d1 ∧ (d2.lookup kv.1).isNone = true) ∨ kv ∈ d2 := by
  simp [dictUpdate, List.mem_append, List.mem_filter]

/-- The IntelMPI environment-variable mapping holds exactly the entries of
the environment whose key is in one of the three collected families. -/
lemma mem_intelEnvvars (environ : List (String × String)) (k v : String) :
    ((k, v) ∈ intelEnvvars environ ↔
      ((k, v) ∈ environ ∧
       (strStartsWith k "I_MPI_" || strStartsWith k "MPICH_" ||
        (strStartsWith k "MPI" && strEndsWith k "PROFILE")) = true)) := by
  unfold intelEnvvars
  constructor
  · intro h
    rcases (mem_dictUpdate _ _ _).1 h with ⟨hD, _⟩ | hC
    · rcases (mem_dictUpdate _ _ _).1 hD with ⟨hA, _⟩ | hB
      · have h' := List.mem_filter.1 hA
        exact ⟨h'.1, by simp_all⟩
      · have h' := List.mem_filter.1 hB
        exact ⟨h'.1, by simp_all⟩
    · have h' := List.mem_filter.1 hC
      exact ⟨h'.1, by simp_all⟩
  · rintro ⟨hm, hf⟩
    by_cases h3 : (strStartsWith k "MPI" && strEndsWith k "PROFILE") = true
    · exact (mem_dictUpdate _ _ _).2 (Or.inr (List.mem_filter.2 ⟨hm, h3⟩))
    · have hc : (environ.filter
          (fun kv => strStartsWith kv.1 "MPI" && strEndsWith kv.1 "PROFILE")).lookup k
          = none := by
        apply lookup_none_of_ne
        intro kv hkv he
        exact h3 (he ▸ (List.mem_filter.1 hkv).2)
      by_cases h2 : strStartsWith k "MPICH_" = true
      · exact (mem_dictUpdate _ _ _).2 (Or.inl ⟨(mem_dictUpdate _ _ _).2
          (Or.inr (List.mem_filter.2 ⟨hm, h2⟩)), by simp [hc]⟩)
      · have h1 : strStartsWith k "I_MPI_" = true := by
          rw [Bool.not_eq_true] at h2 h3
          simpa [h2, h3] using hf
        have hb : (environ.filter
            (fun kv => strStartsWith kv.1 "MPICH_")).lookup k = none := by
          apply lookup_none_of_ne
          intro kv hkv he
          rw [Bool.not_eq_true] at h2
          have := (List.mem_filter.1 hkv).2
          rw [he, h2] at this
          cases this
        exact (mem_dictUpdate _ _ _).2 (Or.inl ⟨(mem_dictUpdate _ _ _).2
          (Or.inl ⟨List.mem_filter.2 ⟨hm, h1⟩, by simp [hb]⟩), by simp [hc]⟩)

/-- A successful OpenMPI branch collects exactly the `OMPI_`-keyed part of
the environment. -/
lemma openmpiDetect_envvars (w : World) (c : DetectCore)
    (h : openmpiDetect w = Except.ok c) :
    c.mpi_envvars = w.environ.filter (fun kv => strStartsWith kv.1 "OMPI_") := by
  simp only [openmpiDetect] at h
  repeat' split at h
  all_goals simp_all
  rw [← h]

/-- A successful IntelMPI branch collects exactly `intelEnvvars`. -/
lemma impiDetect_envvars (w : World) (p : String) (c : DetectCore)
    (h : impiDetect w p = Except.ok c) :
    c.mpi_envvars = intelEnvvars w.environ := by
  simp only [impiDetect] at h
  repeat' split at h
  all_goals simp_all
  all_goals rw [← h]

/-- Inversion of a successful derivation for the OpenMPI name. -/
lemma deriveMPI_envvars_openmpi (w : World) (cfg : Config) (d : Derived)
    (hn : strLower cfg.name = "openmpi") (h : deriveMPI w cfg = Except.ok d) :
    d.mpi_envvars = w.environ.filter (fun kv => strStartsWith kv.1 "OMPI_") := by
  simp only [deriveMPI, hn] at h
  simp only [show (("openmpi" : String) == "impi") = false from by decide,
    show (("openmpi" : String) == "openmpi") = true from by decide,
    Bool.false_eq_true, if_false, if_true] at h
  cases hw : w.which "mpicc" with
  | none =>
    simp only [hw] at h
    cases h
  | some p0 =>
    simp only [hw] at h
    cases hc : openmpiDetect w with
    | error e =>
      simp only [hc] at h
      cases h
    | ok c =>
      simp only [hc] at h
      by_cases hex : w.pathExists c.mpi_prefix = true
      · rw [if_pos hex] at h
        injection h with h2
        rw [← h2]
        exact openmpiDetect_envvars w c hc
      · rw [if_neg hex] at h
        cases h

/-- Inversion of a successful derivation for the IntelMPI name. -/
lemma deriveMPI_envvars_impi (w : World) (cfg : Config) (d : Derived)
    (hn : strLower cfg.name = "impi") (h : deriveMPI w cfg = Except.ok d) :
    d.mpi_envvars = intelEnvvars w.environ := by
  simp only [deriveMPI, hn] at h
  simp only [show (("impi" : String) == "impi") = true from by decide,
    show (("impi" : String) == "openmpi") = false from by decide,
    Bool.false_eq_true, if_false, if_true] at h
  cases hw : w.which "mpiicc" with
  | none =>
    simp only [hw] at h
    cases h
  | some p0 =>
    simp only [hw] at h
    cases hc : impiDetect w (w.realpath p0) with
    | error e =>
      simp only [hc] at h
      cases h
    | ok c =>
      simp only [hc] at h
      by_cases hex : w.pathExists c.mpi_prefix = true
      · rw [if_pos hex] at h
        injection h with h2
        rw [← h2]
        exact impiDetect_envvars w (w.realpath p0) c hc
      · rw [if_neg hex] at h
        cases h

/-- A successful construction passes the recorded envvars through. -/
lemma systemMPI_init_inv (w : World) (cfg : Config) (inst : MpiInst)
    (h : systemMPI_init w cfg = Except.ok inst) :
    ∃ d, deriveMPI w cfg = Except.ok d ∧ inst.mpi_envvars = d.mpi_envvars := by
  simp only [systemMPI_init] at h
  cases hd : deriveMPI w cfg with
  | error e =>
    simp only [hd] at h
    cases h
  | ok d =>
    simp only [hd] at h
    refine ⟨d, rfl, ?_⟩
    by_cases h1 : (cfg.version == "system") = true
    · rw [if_pos h1] at h
      injection h with h2
      rw [← h2]
      rfl
    · rw [if_neg h1] at h
      by_cases h2 : (cfg.version == d.mpi_version) = true
      · rw [if_pos h2] at h
        injection h with h3
        rw [← h3]
        rfl
      · rw [if_neg h2] at h
        cases h

/-- C6: the recorded environment-variable mapping of a constructed
instance contains exactly the process-environment entries whose name is
in the implementation's fixed families — `OMPI_`-prefixed for OpenMPI;
`I_MPI_`- or `MPICH_`-prefixed, or `MPI`-prefixed and `PROFILE`-suffixed,
for IntelMPI — and nothing else. -/
theorem C6_envvar_families (w : World) (cfg : Config) (inst : MpiInst)
    (h : systemMPI_init w cfg = Except.ok inst) :
    (strLower cfg.name = "openmpi" → ∀ k v : String,
      ((k, v) ∈ inst.mpi_envvars ↔
        ((k, v) ∈ w.environ ∧ strStartsWith k "OMPI_" = true))) ∧
    (strLower cfg.name = "impi" → ∀ k v : String,
      ((k, v) ∈ inst.mpi_envvars ↔
        ((k, v) ∈ w.environ ∧
         (strStartsWith k "I_MPI_" || strStartsWith k "MPICH_" ||
          (strStartsWith k "MPI" && strEndsWith k "PROFILE")) = true))) := by
  obtain ⟨d, hd, he⟩ := systemMPI_init_inv w cfg inst h
  constructor
  · intro hn k v
    rw [he, deriveMPI_envvars_openmpi w cfg d hn hd]
    simp [List.mem_filter]
  · intro hn k v
    rw [he, deriveMPI_envvars_impi w cfg d hn hd]
    exact mem_intelEnvvars w.environ k v

/-- Witness for C6 on the concrete OpenMPI world. -/
theorem C6_envvar_families_witness :
    systemMPI_init wOmpi cfg1 = Except.ok instX ∧
    ((("OMPI_MCA_btl", "self") ∈ instX.mpi_envvars) ↔
      (("OMPI_MCA_btl", "self") ∈ wOmpi.environ ∧
       strStartsWith "OMPI_MCA_btl" "OMPI_" = true)) :=
  ⟨by decide,
   (C6_envvar_families wOmpi cfg1 instX (by decide)).1 (by decide)
     "OMPI_MCA_btl" "self"⟩
